import Mathlib

set_option maxRecDepth 10000

/-!
Verification model of the SerialMouse driver (SerialMouse.cpp / SerialMouse.hpp).

The driver's pure decode macros are embedded as Lean functions on natural
numbers; the stateful driver methods are embedded as explicit state
transformers over a `SerialStream` record that models the IOKit serial
transport collaborator at its interface boundary.  Each driver method also
returns the list of transport operations it performed (its trace), so that
resource-release and ordering properties can be stated about the trace.
-/

/-- IOReturn status codes, modelled as an inductive: the driver only ever
compares against kIOReturnSuccess and produces kIOReturnInvalid; other
concrete kernel codes are collapsed into the remaining constructors
(`busy` = kIOReturnExclusiveAccess, `notOpen` = kIOReturnNotOpen,
`timeout` = kIOReturnTimeout, `ioError n` = any other transport error). -/
inductive IOReturn where
  | success
  | busy
  | notOpen
  | invalid
  | timeout
  | ioError (n : Nat)
deriving DecidableEq, Repr

/-- The serial-port events the driver uses (PD_E_DATA_RATE, PD_E_DATA_SIZE,
PD_RS232_E_STOP_BITS, PD_E_FLOW_CONTROL, PD_E_ACTIVE, PD_E_RXQ_FLUSH). -/
inductive SerialEvent where
  | dataRate
  | dataSize
  | stopBits
  | flowControl
  | active
  | rxqFlush
deriving DecidableEq, Repr

/-- Control-line flag bits from IOKit's IOSerialTypes.h, modelled as two
distinct single bits.  Every property in this development depends only on
the two bits being distinct, not on their absolute positions. -/
def PD_RS232_S_RTS : Nat := 0x10

/-- DTR control-line flag bit; see `PD_RS232_S_RTS`. -/
def PD_RS232_S_DTR : Nat := 0x20

/-- 32-bit bitwise complement, as produced by the C `~` operator on UInt32. -/
def compl32 (n : Nat) : Nat := 0xFFFFFFFF ^^^ n

/-- MOUSE_DATA_RATE: `1200 bits` where the `bits` macro is `<<1`
(IOKit expresses these line parameters in half-bit units). -/
def MOUSE_DATA_RATE : Nat := 1200 <<< 1

/-- MOUSE_DATA_SIZE: `7 bits` = 7 <<< 1. -/
def MOUSE_DATA_SIZE : Nat := 7 <<< 1

/-- MOUSE_STOP_BITS: `1 bits` = 1 <<< 1. -/
def MOUSE_STOP_BITS : Nat := 1 <<< 1

/-- MOUSE_FLOW_CONTROL: RTS and DTR asserted. -/
def MOUSE_FLOW_CONTROL : Nat := PD_RS232_S_RTS ||| PD_RS232_S_DTR

/-- Identification delay in milliseconds. -/
def MOUSE_ID_DELAY_MS : Nat := 100

/-- Expected identification byte. -/
def MOUSE_ID_BYTE : Nat := 0x4D

/-- Packet length in bytes. -/
def MOUSE_PACKET_LENGTH : Nat := 3

/-- HID left-button bit. -/
def HID_MOUSE_LEFTB : Nat := 0x1

/-- HID right-button bit. -/
def HID_MOUSE_RIGHTB : Nat := 0x2

/-- The C `(SInt8)` cast of an 8-bit value: two's-complement
reinterpretation into the range [-128, 127]. -/
def signExtend8 (n : Nat) : Int :=
  if n % 256 < 128 then (n % 256 : Int) else (n % 256 : Int) - 256

/-- MOUSE_PACKET_VALID: bit 6 (0x40) of the first packet byte. -/
def MOUSE_PACKET_VALID (b0 : Nat) : Bool := b0 &&& 0x40 != 0

/-- MOUSE_PACKET_LEFTB: bit 5 (0x20) of the first packet byte. -/
def MOUSE_PACKET_LEFTB (b0 : Nat) : Bool := b0 &&& 0x20 != 0

/-- MOUSE_PACKET_RIGHTB: bit 4 (0x10) of the first packet byte. -/
def MOUSE_PACKET_RIGHTB (b0 : Nat) : Bool := b0 &&& 0x10 != 0

/-- MOUSE_PACKET_BUTTONS: left/right HID bits assembled from the first
packet byte. -/
def MOUSE_PACKET_BUTTONS (b0 : Nat) : Nat :=
  (if MOUSE_PACKET_LEFTB b0 then HID_MOUSE_LEFTB else 0) |||
  (if MOUSE_PACKET_RIGHTB b0 then HID_MOUSE_RIGHTB else 0)

/-- MOUSE_PACKET_POSX: `(SInt8)((packet[1] & 0x3F) | ((packet[0] & 0x3) << 6))`. -/
def MOUSE_PACKET_POSX (b0 b1 : Nat) : Int :=
  signExtend8 ((b1 &&& 0x3F) ||| ((b0 &&& 0x3) <<< 6))

/-- MOUSE_PACKET_POSY: `(SInt8)((packet[2] & 0x3F) | ((packet[0] & 0xC) << 4))`. -/
def MOUSE_PACKET_POSY (b0 b2 : Nat) : Int :=
  signExtend8 ((b2 &&& 0x3F) ||| ((b0 &&& 0xC) <<< 4))

/-- The decode formula for deltaX exactly as the specification writes it. -/
def specDeltaX (b0 b1 : Nat) : Int :=
  signExtend8 ((b1 &&& 0x3F) ||| ((b0 &&& 0x03) <<< 6))

/-- The decode formula for deltaY exactly as the specification writes it. -/
def specDeltaY (b0 b2 : Nat) : Int :=
  signExtend8 ((b2 &&& 0x3F) ||| ((b0 &&& 0x0C) <<< 4))

/-- Model of the IORS232SerialStreamSync transport collaborator.
`acquired`/`active` are the exclusive-ownership and line-active states;
the four configuration registers follow; `rxQueue` is the receive queue;
`incoming` holds bytes the attached device will deliver during the next
identification delay (the device answers the DTR wake-up pulse, and those
bytes arrive while the driver sleeps); `execFaults`, `reqFaults` and
`dequeueFault` inject transport I/O failures for specific operations, so
error paths of the driver can be exercised.  Operations on a port that is
not exclusively acquired fail with `notOpen`, as IOKit serial streams
require an open session. -/
structure SerialStream where
  acquired : Bool
  active : Bool
  dataRate : Nat
  dataSize : Nat
  stopBits : Nat
  flowControl : Nat
  rxQueue : List Nat
  incoming : List Nat
  execFaults : List (SerialEvent × IOReturn)
  reqFaults : List (SerialEvent × IOReturn)
  dequeueFault : Option IOReturn
deriving DecidableEq, Repr

/-- Look up an injected fault for an event. -/
def findFault (fs : List (SerialEvent × IOReturn)) (e : SerialEvent) : Option IOReturn :=
  match fs with
  | [] => none
  | (e', r) :: rest => if e' = e then some r else findFault rest e

/-- Transport acquirePort(sleep): non-blocking exclusive acquisition; fails
with `busy` when the port is already owned. -/
def SerialStream.acquirePort (s : SerialStream) (_sleepArg : Bool) : IOReturn × SerialStream :=
  if s.acquired then (IOReturn.busy, s)
  else (IOReturn.success, { s with acquired := true })

/-- Transport releasePort(): gives up exclusive ownership; fails with
`notOpen` when the port is not currently owned. -/
def SerialStream.releasePort (s : SerialStream) : IOReturn × SerialStream :=
  if s.acquired then (IOReturn.success, { s with acquired := false })
  else (IOReturn.notOpen, s)

/-- Transport executeEvent(event, data): applies a configuration change,
activation change, or receive-queue flush. -/
def SerialStream.executeEvent (s : SerialStream) (e : SerialEvent) (v : Nat) :
    IOReturn × SerialStream :=
  match findFault s.execFaults e with
  | some r => (r, s)
  | none =>
    if s.acquired then
      match e with
      | SerialEvent.dataRate => (IOReturn.success, { s with dataRate := v })
      | SerialEvent.dataSize => (IOReturn.success, { s with dataSize := v })
      | SerialEvent.stopBits => (IOReturn.success, { s with stopBits := v })
      | SerialEvent.flowControl => (IOReturn.success, { s with flowControl := v })
      | SerialEvent.active => (IOReturn.success, { s with active := v != 0 })
      | SerialEvent.rxqFlush => (IOReturn.success, { s with rxQueue := [] })
    else (IOReturn.notOpen, s)

/-- Transport requestEvent(event, &value): queries a line parameter.  On
failure the C out-parameter is left untouched, so the caller's previous
value `old` is returned unchanged. -/
def SerialStream.requestEvent (s : SerialStream) (e : SerialEvent) (old : Nat) :
    IOReturn × Nat :=
  match findFault s.reqFaults e with
  | some r => (r, old)
  | none =>
    if s.acquired then
      match e with
      | SerialEvent.dataRate => (IOReturn.success, s.dataRate)
      | SerialEvent.dataSize => (IOReturn.success, s.dataSize)
      | SerialEvent.stopBits => (IOReturn.success, s.stopBits)
      | SerialEvent.flowControl => (IOReturn.success, s.flowControl)
      | SerialEvent.active => (IOReturn.success, if s.active then 1 else 0)
      | SerialEvent.rxqFlush => (IOReturn.success, old)
    else (IOReturn.notOpen, old)

/-- Transport dequeueData(buffer, size, &count, min) in its no-wait form
(min = 0), the only form the model invokes directly: it returns immediately
with up to `size` bytes from the receive queue (possibly zero).  The
blocking read of the polling loop is modelled separately by `ReadResult`
streams.  Returns (status, new stream, bytes placed in the buffer). -/
def SerialStream.dequeueData (s : SerialStream) (size _minCount : Nat) :
    IOReturn × SerialStream × List Nat :=
  match s.dequeueFault with
  | some r => (r, s, [])
  | none =>
    if s.acquired then
      (IOReturn.success, { s with rxQueue := s.rxQueue.drop size }, s.rxQueue.take size)
    else (IOReturn.notOpen, s, [])

/-- Environment model of IOSleep during the identification delay: the
bytes the device emits in response to the wake-up pulse arrive in the
receive queue while the driver sleeps. -/
def SerialStream.sleepDeliver (s : SerialStream) : SerialStream :=
  { s with rxQueue := s.rxQueue ++ s.incoming, incoming := [] }

/-- Transport/driver operations recorded in traces. -/
inductive Op where
  | acquire
  | release
  | execute (e : SerialEvent) (v : Nat)
  | request (e : SerialEvent)
  | dequeue (size minCount : Nat)
  | sleep (ms : Nat)
  | dispatch (dx dy : Int) (buttons : Nat)
  | threadStart
  | threadTerminate
deriving DecidableEq, Repr

/-- Count the trace operations satisfying a predicate. -/
def countOp (p : Op → Bool) (t : List Op) : Nat := (t.filter p).length

/-- Predicate: a transport ownership release. -/
def isRelease : Op → Bool
  | Op.release => true
  | _ => false

/-- Predicate: a receive-queue flush. -/
def isFlush : Op → Bool
  | Op.execute SerialEvent.rxqFlush _ => true
  | _ => false

/-- Predicate: a dispatched pointer event. -/
def isDispatch : Op → Bool
  | Op.dispatch _ _ _ => true
  | _ => false

/-- Predicate: a read issued to the transport. -/
def isDequeue : Op → Bool
  | Op.dequeue _ _ => true
  | _ => false

/-- Predicate: a polling-worker spawn. -/
def isThreadStart : Op → Bool
  | Op.threadStart => true
  | _ => false

/-- SerialMouse::acquirePort: acquires the port without sleeping. -/
def SerialMouse.acquirePort (s : SerialStream) : IOReturn × SerialStream × List Op :=
  let (r, s1) := s.acquirePort false
  (r, s1, [Op.acquire])

/-- SerialMouse::releasePort: deactivates the port (PD_E_ACTIVE false);
on failure returns that status without releasing; otherwise releases the
port. -/
def SerialMouse.releasePort (s : SerialStream) : IOReturn × SerialStream × List Op :=
  let (st, s1) := s.executeEvent SerialEvent.active 0
  if st ≠ IOReturn.success then (st, s1, [Op.execute SerialEvent.active 0])
  else
    let (r, s2) := s1.releasePort
    (r, s2, [Op.execute SerialEvent.active 0, Op.release])

/-- SerialMouse::setPortSettings: applies data rate, data size, stop bits
and flow control in that order, stopping at the first failure. -/
def SerialMouse.setPortSettings (s : SerialStream)
    (dataRate dataSize stopBits flowControl : Nat) : IOReturn × SerialStream × List Op :=
  let (r1, s1) := s.executeEvent SerialEvent.dataRate dataRate
  if r1 ≠ IOReturn.success then (r1, s1, [Op.execute SerialEvent.dataRate dataRate])
  else
    let (r2, s2) := s1.executeEvent SerialEvent.dataSize dataSize
    if r2 ≠ IOReturn.success then
      (r2, s2, [Op.execute SerialEvent.dataRate dataRate,
                Op.execute SerialEvent.dataSize dataSize])
    else
      let (r3, s3) := s2.executeEvent SerialEvent.stopBits stopBits
      if r3 ≠ IOReturn.success then
        (r3, s3, [Op.execute SerialEvent.dataRate dataRate,
                  Op.execute SerialEvent.dataSize dataSize,
                  Op.execute SerialEvent.stopBits stopBits])
      else
        let (r4, s4) := s3.executeEvent SerialEvent.flowControl flowControl
        (r4, s4, [Op.execute SerialEvent.dataRate dataRate,
                  Op.execute SerialEvent.dataSize dataSize,
                  Op.execute SerialEvent.stopBits stopBits,
                  Op.execute SerialEvent.flowControl flowControl])

/-- SerialMouse::getPortSettings: queries data rate, data size, stop bits
and flow control in that order, stopping at the first failure; the C
out-parameters keep their previous values for unqueried fields, so those
previous values are threaded through. -/
def SerialMouse.getPortSettings (s : SerialStream)
    (dataRate dataSize stopBits flowControl : Nat) :
    IOReturn × Nat × Nat × Nat × Nat × List Op :=
  let (r1, v1) := s.requestEvent SerialEvent.dataRate dataRate
  if r1 ≠ IOReturn.success then
    (r1, v1, dataSize, stopBits, flowControl, [Op.request SerialEvent.dataRate])
  else
    let (r2, v2) := s.requestEvent SerialEvent.dataSize dataSize
    if r2 ≠ IOReturn.success then
      (r2, v1, v2, stopBits, flowControl,
       [Op.request SerialEvent.dataRate, Op.request SerialEvent.dataSize])
    else
      let (r3, v3) := s.requestEvent SerialEvent.stopBits stopBits
      if r3 ≠ IOReturn.success then
        (r3, v1, v2, v3, flowControl,
         [Op.request SerialEvent.dataRate, Op.request SerialEvent.dataSize,
          Op.request SerialEvent.stopBits])
      else
        let (r4, v4) := s.requestEvent SerialEvent.flowControl flowControl
        (r4, v1, v2, v3, v4,
         [Op.request SerialEvent.dataRate, Op.request SerialEvent.dataSize,
          Op.request SerialEvent.stopBits, Op.request SerialEvent.flowControl])

/-- SerialMouse::setupPort: applies the required mouse line configuration,
then activates the port (PD_E_ACTIVE true). -/
def SerialMouse.setupPort (s : SerialStream) : IOReturn × SerialStream × List Op :=
  let (r1, s1, t1) := SerialMouse.setPortSettings s
      MOUSE_DATA_RATE MOUSE_DATA_SIZE MOUSE_STOP_BITS MOUSE_FLOW_CONTROL
  if r1 ≠ IOReturn.success then (r1, s1, t1)
  else
    let (r2, s2) := s1.executeEvent SerialEvent.active 1
    (r2, s2, t1 ++ [Op.execute SerialEvent.active 1])

/-- SerialMouse::flushPort: flushes the receive queue (PD_E_RXQ_FLUSH). -/
def SerialMouse.flushPort (s : SerialStream) : IOReturn × SerialStream × List Op :=
  let (r, s1) := s.executeEvent SerialEvent.rxqFlush 0
  (r, s1, [Op.execute SerialEvent.rxqFlush 0])

/-- SerialMouse::checkMouseId: flushes the receive queue, pulses DTR
(apply flow control, deassert DTR only, re-apply flow control), sleeps the
identification delay, reads one byte with no wait, and compares it to the
expected identification byte.  The mouseId buffer is initialised to 0 and
only overwritten by bytes actually read. -/
def SerialMouse.checkMouseId (s : SerialStream) : IOReturn × SerialStream × List Op :=
  let (r1, s1, t1) := SerialMouse.flushPort s
  if r1 ≠ IOReturn.success then (r1, s1, t1)
  else
    let (r2, s2) := s1.executeEvent SerialEvent.flowControl MOUSE_FLOW_CONTROL
    let t2 := t1 ++ [Op.execute SerialEvent.flowControl MOUSE_FLOW_CONTROL]
    if r2 ≠ IOReturn.success then (r2, s2, t2)
    else
      let (r3, s3) := s2.executeEvent SerialEvent.flowControl
          (MOUSE_FLOW_CONTROL &&& compl32 PD_RS232_S_DTR)
      let t3 := t2 ++ [Op.execute SerialEvent.flowControl
          (MOUSE_FLOW_CONTROL &&& compl32 PD_RS232_S_DTR)]
      if r3 ≠ IOReturn.success then (r3, s3, t3)
      else
        let (r4, s4) := s3.executeEvent SerialEvent.flowControl MOUSE_FLOW_CONTROL
        let t4 := t3 ++ [Op.execute SerialEvent.flowControl MOUSE_FLOW_CONTROL]
        if r4 ≠ IOReturn.success then (r4, s4, t4)
        else
          let s5 := s4.sleepDeliver
          let (r6, s6, bytes) := s5.dequeueData 1 0
          let t6 := t4 ++ [Op.sleep MOUSE_ID_DELAY_MS, Op.dequeue 1 0]
          let mouseId := bytes.headD 0
          if r6 ≠ IOReturn.success then (r6, s6, t6)
          else if mouseId ≠ MOUSE_ID_BYTE then (IOReturn.invalid, s6, t6)
          else (IOReturn.success, s6, t6)

/-- The `done:` label of SerialMouse::probe: writes back the snapshot of
the original settings and releases the port, ignoring both statuses, then
returns whether a mouse matched. -/
def SerialMouse.probeFinish (matched : Bool) (s : SerialStream)
    (dataRate dataSize stopBits flowControl : Nat) (tr : List Op) :
    Bool × SerialStream × List Op :=
  let (_, s1, tSet) := SerialMouse.setPortSettings s dataRate dataSize stopBits flowControl
  let (_, s2, tRel) := SerialMouse.releasePort s1
  (matched, s2, tr ++ tSet ++ tRel)

/-- SerialMouse::probe: the original-settings variables start at 0;
acquires the port, reads the original settings, sets up the port and
checks the mouse id, jumping to the restore/release epilogue on the first
failure; the epilogue always runs.  Returns whether a mouse matched
(the C function returns `this` or NULL). -/
def SerialMouse.probe (s : SerialStream) : Bool × SerialStream × List Op :=
  let (rA, sA, tA) := SerialMouse.acquirePort s
  if rA ≠ IOReturn.success then SerialMouse.probeFinish false sA 0 0 0 0 tA
  else
    let (rG, dR, dS, sB, fC, tG) := SerialMouse.getPortSettings sA 0 0 0 0
    if rG ≠ IOReturn.success then
      SerialMouse.probeFinish false sA dR dS sB fC (tA ++ tG)
    else
      let (rS, sS, tS) := SerialMouse.setupPort sA
      if rS ≠ IOReturn.success then
        SerialMouse.probeFinish false sS dR dS sB fC (tA ++ tG ++ tS)
      else
        let (rC, sC, tC) := SerialMouse.checkMouseId sS
        if rC ≠ IOReturn.success then
          SerialMouse.probeFinish false sC dR dS sB fC (tA ++ tG ++ tS ++ tC)
        else
          SerialMouse.probeFinish true sC dR dS sB fC (tA ++ tG ++ tS ++ tC)

/-- The `fail:` label of SerialMouse::start: releases the port (status
ignored) and returns false. -/
def SerialMouse.startFail (s : SerialStream) (tr : List Op) :
    Bool × SerialStream × List Op :=
  let (_, s1, tRel) := SerialMouse.releasePort s
  (false, s1, tr ++ tRel)

/-- SerialMouse::start: acquires the port, sets it up, checks the mouse
id, then spawns the polling thread; any failure jumps to the fail label,
which releases the port and returns false.  `spawnResult` is the outcome
of kernel_thread_start, an external primitive. -/
def SerialMouse.start (s : SerialStream) (spawnResult : IOReturn) :
    Bool × SerialStream × List Op :=
  let (rA, sA, tA) := SerialMouse.acquirePort s
  if rA ≠ IOReturn.success then SerialMouse.startFail sA tA
  else
    let (rS, sS, tS) := SerialMouse.setupPort sA
    if rS ≠ IOReturn.success then SerialMouse.startFail sS (tA ++ tS)
    else
      let (rC, sC, tC) := SerialMouse.checkMouseId sS
      if rC ≠ IOReturn.success then SerialMouse.startFail sC (tA ++ tS ++ tC)
      else
        if spawnResult ≠ IOReturn.success then
          SerialMouse.startFail sC (tA ++ tS ++ tC ++ [Op.threadStart])
        else (true, sC, tA ++ tS ++ tC ++ [Op.threadStart])

/-- SerialMouse::stop: terminates and deallocates the polling thread and
calls the superclass stop; it performs no transport operation, so the
stream is unchanged. -/
def SerialMouse.stop (s : SerialStream) : SerialStream × List Op :=
  (s, [Op.threadTerminate])

/-- Outcome of one blocking 3-byte read in the polling loop: the status
returned by dequeueData and the bytes placed in the packet buffer (the C
`count` variable is the length of `bytes`). -/
structure ReadResult where
  status : IOReturn
  bytes : List Nat
deriving DecidableEq, Repr

/-- One iteration of the body of SerialMouse::pollMouseThread, given the
outcome of its read: when the read succeeded with a full 3-byte packet,
either flush (invalid header) or dispatch a pointer event (valid header);
otherwise do nothing.  Returns the operations performed after the read. -/
def SerialMouse.pollStep (r : ReadResult) : List Op :=
  if r.status = IOReturn.success ∧ r.bytes.length = MOUSE_PACKET_LENGTH then
    let b0 := r.bytes.headD 0
    let b1 := (r.bytes.drop 1).headD 0
    let b2 := (r.bytes.drop 2).headD 0
    if ¬ MOUSE_PACKET_VALID b0 then [Op.execute SerialEvent.rxqFlush 0]
    else [Op.dispatch (MOUSE_PACKET_POSX b0 b1) (MOUSE_PACKET_POSY b0 b2)
            (MOUSE_PACKET_BUTTONS b0)]
  else []

/-- The trace of the first `n` iterations of the unbounded polling loop,
where `env k` is the outcome of the k-th blocking read: every iteration
issues its read and then performs the body's operations. -/
def SerialMouse.pollTrace (env : Nat → ReadResult) : Nat → List Op
  | 0 => []
  | n + 1 => SerialMouse.pollTrace env n ++
      (Op.dequeue MOUSE_PACKET_LENGTH MOUSE_PACKET_LENGTH :: SerialMouse.pollStep (env n))

/-- A fault-free, unacquired serial stream: the state a driver instance
sees before probe or start. -/
def freshStream (act : Bool) (dataRate dataSize stopBits flowControl : Nat)
    (rxQueue incoming : List Nat) : SerialStream :=
  ⟨false, act, dataRate, dataSize, stopBits, flowControl, rxQueue, incoming, [], [], none⟩

/-- A fault-free serial stream already exclusively acquired by the driver. -/
def ownedStream (act : Bool) (dataRate dataSize stopBits flowControl : Nat)
    (rxQueue incoming : List Nat) : SerialStream :=
  ⟨true, act, dataRate, dataSize, stopBits, flowControl, rxQueue, incoming, [], [], none⟩

/-- Sign extension of an 8-bit value always lands in [-128, 127]. -/
theorem signExtend8_range (n : Nat) : -128 ≤ signExtend8 n ∧ signExtend8 n ≤ 127 := by
  unfold signExtend8
  have h : n % 256 < 256 := Nat.mod_lt _ (by decide)
  split <;> constructor <;> omega

/-- Bits 5 and 4 of the first packet byte drive the left/right HID button
bits of the decoded button mask. -/
theorem buttonsBits : ∀ b : Fin 256,
    ((MOUSE_PACKET_BUTTONS b.val &&& HID_MOUSE_LEFTB ≠ 0) ↔ b.val.testBit 5) ∧
    ((MOUSE_PACKET_BUTTONS b.val &&& HID_MOUSE_RIGHTB ≠ 0) ↔ b.val.testBit 4) := by
  decide

/-- Counting operations distributes over trace concatenation. -/
theorem countOp_append (p : Op → Bool) (a b : List Op) :
    countOp p (a ++ b) = countOp p a + countOp p b := by
  simp [countOp, List.filter_append]

/-- The body of a polling iteration never issues a read itself. -/
theorem pollStep_no_dequeue (r : ReadResult) :
    countOp isDequeue (SerialMouse.pollStep r) = 0 := by
  unfold SerialMouse.pollStep
  split
  · dsimp only
    split <;> simp [countOp, isDequeue]
  · simp [countOp]

/-- Counting operations over a cons whose head matches. -/
theorem countOp_cons_true (p : Op → Bool) (x : Op) (t : List Op) (hx : p x = true) :
    countOp p (x :: t) = countOp p t + 1 := by
  simp [countOp, List.filter_cons, hx]

/-- A driver instance in the Polling state: port exclusively acquired,
line active, mouse configuration applied. -/
def pollingStream : SerialStream :=
  ownedStream true MOUSE_DATA_RATE MOUSE_DATA_SIZE MOUSE_STOP_BITS MOUSE_FLOW_CONTROL [] []

/-- Claim C1 (code bug): a stop request on a Polling-state instance is
claimed to release the transport exactly once; the code's stop only
terminates the polling thread — its trace contains no release and no
deactivate, and the port stays exclusively acquired. -/
theorem stop_never_releases_transport :
    SerialMouse.stop pollingStream = (pollingStream, [Op.threadTerminate]) ∧
    (SerialMouse.stop pollingStream).1.acquired = true ∧
    countOp isRelease (SerialMouse.stop pollingStream).2 = 0 ∧
    countOp isFlush (SerialMouse.stop pollingStream).2 = 0 := by
  decide

/-- Claim C2 counterexample: the frame [0x42, 0x01, 0x02] decodes to
deltaX = -127, not deltaX = 1 as the claim states (byte0 = 0x42 has bit 1
set, which is X7, the sign bit of deltaX). -/
theorem frame_42_01_02_deltaX_counterexample :
    MOUSE_PACKET_POSX 0x42 0x01 = -127 ∧ MOUSE_PACKET_POSX 0x42 0x01 ≠ 1 := by
  decide

/-- Claim C2 (amended): for every 3-byte frame whose first byte has bit 6
set, the decoder computes deltaX and deltaY exactly by the spec formulas,
the button bits follow bits 5 and 4 of byte0, both deltas lie in
[-128, 127]; and the frame [0x42, 0x01, 0x02] decodes to buttons = 0,
deltaX = -127, deltaY = 2. -/
theorem mouse_packet_decode_formulas (b0 b1 b2 : Nat)
    (h0 : b0 < 256) (h1 : b1 < 256) (h2 : b2 < 256)
    (hv : MOUSE_PACKET_VALID b0 = true) :
    MOUSE_PACKET_POSX b0 b1 = specDeltaX b0 b1 ∧
    MOUSE_PACKET_POSY b0 b2 = specDeltaY b0 b2 ∧
    (MOUSE_PACKET_BUTTONS b0 &&& HID_MOUSE_LEFTB ≠ 0 ↔ b0.testBit 5) ∧
    (MOUSE_PACKET_BUTTONS b0 &&& HID_MOUSE_RIGHTB ≠ 0 ↔ b0.testBit 4) ∧
    -128 ≤ MOUSE_PACKET_POSX b0 b1 ∧ MOUSE_PACKET_POSX b0 b1 ≤ 127 ∧
    -128 ≤ MOUSE_PACKET_POSY b0 b2 ∧ MOUSE_PACKET_POSY b0 b2 ≤ 127 ∧
    MOUSE_PACKET_BUTTONS 0x42 = 0 ∧ MOUSE_PACKET_POSX 0x42 0x01 = -127 ∧
    MOUSE_PACKET_POSY 0x42 0x02 = 2 :=
  ⟨rfl, rfl, (buttonsBits ⟨b0, h0⟩).1, (buttonsBits ⟨b0, h0⟩).2,
   (signExtend8_range _).1, (signExtend8_range _).2,
   (signExtend8_range _).1, (signExtend8_range _).2,
   by decide, by decide, by decide⟩

/-- Claim C2 witness: the amended decode theorem applied to the concrete
frame [0x42, 0x01, 0x02]. -/
theorem mouse_packet_decode_formulas_witness :
    ((0x42 : Nat) < 256 ∧ (0x01 : Nat) < 256 ∧ (0x02 : Nat) < 256 ∧
      MOUSE_PACKET_VALID 0x42 = true) ∧
    (MOUSE_PACKET_POSX 0x42 0x01 = specDeltaX 0x42 0x01 ∧
     MOUSE_PACKET_POSY 0x42 0x02 = specDeltaY 0x42 0x02 ∧
     (MOUSE_PACKET_BUTTONS 0x42 &&& HID_MOUSE_LEFTB ≠ 0 ↔ (0x42 : Nat).testBit 5) ∧
     (MOUSE_PACKET_BUTTONS 0x42 &&& HID_MOUSE_RIGHTB ≠ 0 ↔ (0x42 : Nat).testBit 4) ∧
     -128 ≤ MOUSE_PACKET_POSX 0x42 0x01 ∧ MOUSE_PACKET_POSX 0x42 0x01 ≤ 127 ∧
     -128 ≤ MOUSE_PACKET_POSY 0x42 0x02 ∧ MOUSE_PACKET_POSY 0x42 0x02 ≤ 127 ∧
     MOUSE_PACKET_BUTTONS 0x42 = 0 ∧ MOUSE_PACKET_POSX 0x42 0x01 = -127 ∧
     MOUSE_PACKET_POSY 0x42 0x02 = 2) :=
  ⟨⟨by decide, by decide, by decide, by decide⟩,
   mouse_packet_decode_formulas 0x42 0x01 0x02 (by decide) (by decide) (by decide) (by decide)⟩

/-- A transport whose data-size query fails: the port can be acquired and
holds the mouse configuration, but requestEvent(PD_E_DATA_SIZE) returns an
I/O error. -/
def c5Stream : SerialStream :=
  ⟨false, false, MOUSE_DATA_RATE, MOUSE_DATA_SIZE, MOUSE_STOP_BITS, MOUSE_FLOW_CONTROL,
   [], [], [], [(SerialEvent.dataSize, IOReturn.ioError 1)], none⟩

/-- Claim C5 (code bug): probe is claimed to leave the configuration
field-for-field identical even when reading the original settings fails;
but the original-settings variables start at 0 and the epilogue writes
them back unconditionally, so after a probe whose data-size query fails
the data size, stop bits and flow control are overwritten with 0. -/
theorem probe_clobbers_settings_on_read_failure :
    c5Stream.dataSize = MOUSE_DATA_SIZE ∧
    c5Stream.stopBits = MOUSE_STOP_BITS ∧
    (SerialMouse.probe c5Stream).2.1.dataSize = 0 ∧
    (SerialMouse.probe c5Stream).2.1.stopBits = 0 ∧
    (SerialMouse.probe c5Stream).2.1.flowControl = 0 ∧
    (SerialMouse.probe c5Stream).2.1.dataSize ≠ c5Stream.dataSize := by
  decide

/-- A transport owned by the driver, as it is right before stop-time
cleanup or a first release. -/
def c6Stream : SerialStream := ownedStream true 2400 14 2 0x30 [] []

/-- Claim C6 counterexample: calling releasePort twice in a row is claimed
to never error the second time; on the code, the second call forwards to
the transport and returns the transport's not-open error. -/
theorem double_release_counterexample :
    (SerialMouse.releasePort ((SerialMouse.releasePort c6Stream).2.1)).1 = IOReturn.notOpen ∧
    IOReturn.notOpen ≠ IOReturn.success := by
  decide

/-- Claim C6 (amended): releasePort has no idempotence guard: the first
call on an owned port succeeds; the second call forwards the deactivate
event to the now-unowned port, returns the transport's error, and changes
no transport state (its callers in this driver ignore that error). -/
theorem second_release_forwards_and_errors (act : Bool) (dr ds sb fc : Nat)
    (rq inc : List Nat) :
    (SerialMouse.releasePort (ownedStream act dr ds sb fc rq inc)).1 = IOReturn.success ∧
    (SerialMouse.releasePort
      ((SerialMouse.releasePort (ownedStream act dr ds sb fc rq inc)).2.1)).1 =
        IOReturn.notOpen ∧
    (SerialMouse.releasePort
      ((SerialMouse.releasePort (ownedStream act dr ds sb fc rq inc)).2.1)).2.1 =
      (SerialMouse.releasePort (ownedStream act dr ds sb fc rq inc)).2.1 ∧
    countOp isRelease
      (SerialMouse.releasePort
        ((SerialMouse.releasePort (ownedStream act dr ds sb fc rq inc)).2.1)).2.2 = 0 :=
  ⟨rfl, rfl, rfl, rfl⟩

/-- Claim C7: a 3-byte chunk whose first byte has bit 6 clear produces no
pointer event and exactly one receive-queue flush; the chunk is not
decoded and no error is raised (the iteration performs exactly the flush). -/
theorem invalid_chunk_flushes_once (b0 b1 b2 : Nat) (h : b0 &&& 0x40 = 0) :
    SerialMouse.pollStep ⟨IOReturn.success, [b0, b1, b2]⟩ =
      [Op.execute SerialEvent.rxqFlush 0] ∧
    countOp isFlush (SerialMouse.pollStep ⟨IOReturn.success, [b0, b1, b2]⟩) = 1 ∧
    countOp isDispatch (SerialMouse.pollStep ⟨IOReturn.success, [b0, b1, b2]⟩) = 0 := by
  have hstep : SerialMouse.pollStep ⟨IOReturn.success, [b0, b1, b2]⟩ =
      [Op.execute SerialEvent.rxqFlush 0] := by
    simp [SerialMouse.pollStep, MOUSE_PACKET_VALID, MOUSE_PACKET_LENGTH, h]
  refine ⟨hstep, ?_, ?_⟩ <;> rw [hstep] <;> decide

/-- Claim C7 witness: the invalid-chunk theorem applied to the concrete
chunk [0x02, 0x03, 0x04], whose first byte has bit 6 clear. -/
theorem invalid_chunk_flushes_once_witness :
    (0x02 &&& 0x40 = 0) ∧
    (SerialMouse.pollStep ⟨IOReturn.success, [0x02, 0x03, 0x04]⟩ =
       [Op.execute SerialEvent.rxqFlush 0] ∧
     countOp isFlush (SerialMouse.pollStep ⟨IOReturn.success, [0x02, 0x03, 0x04]⟩) = 1 ∧
     countOp isDispatch (SerialMouse.pollStep ⟨IOReturn.success, [0x02, 0x03, 0x04]⟩) = 0) :=
  ⟨by decide, invalid_chunk_flushes_once 0x02 0x03 0x04 (by decide)⟩

/-- Claim C9: when deactivating the line fails inside releasePort, the
error is returned as-is, the transport's releasePort is never invoked, and
exclusive ownership is unchanged. -/
theorem releasePort_keeps_ownership_on_deactivate_failure (s : SerialStream) (e : IOReturn)
    (hf : findFault s.execFaults SerialEvent.active = some e) (he : e ≠ IOReturn.success) :
    SerialMouse.releasePort s = (e, s, [Op.execute SerialEvent.active 0]) ∧
    countOp isRelease (SerialMouse.releasePort s).2.2 = 0 ∧
    (SerialMouse.releasePort s).2.1.acquired = s.acquired := by
  have hmain : SerialMouse.releasePort s = (e, s, [Op.execute SerialEvent.active 0]) := by
    unfold SerialMouse.releasePort SerialStream.executeEvent
    rw [hf]
    simp [he]
  refine ⟨hmain, ?_, ?_⟩ <;> rw [hmain] <;> rfl

/-- A transport owned by the driver on which deactivating the line fails
with an injected I/O error. -/
def c9Stream : SerialStream :=
  ⟨true, true, 2400, 14, 2, 0x30, [], [], [(SerialEvent.active, IOReturn.ioError 3)], [], none⟩

/-- Claim C9 witness: the deactivate-failure theorem applied to a concrete
owned transport whose deactivate event faults. -/
theorem releasePort_keeps_ownership_on_deactivate_failure_witness :
    (findFault c9Stream.execFaults SerialEvent.active = some (IOReturn.ioError 3) ∧
      IOReturn.ioError 3 ≠ IOReturn.success) ∧
    (SerialMouse.releasePort c9Stream =
       (IOReturn.ioError 3, c9Stream, [Op.execute SerialEvent.active 0]) ∧
     countOp isRelease (SerialMouse.releasePort c9Stream).2.2 = 0 ∧
     (SerialMouse.releasePort c9Stream).2.1.acquired = c9Stream.acquired) :=
  ⟨⟨by decide, by decide⟩,
   releasePort_keeps_ownership_on_deactivate_failure c9Stream (IOReturn.ioError 3)
     (by decide) (by decide)⟩

/-- Claim C10: the polling loop has no exit path of its own — every
iteration, whatever the read returned, is followed by the next read
attempt (the n-iteration trace contains exactly n reads for every
environment), and an iteration whose read failed or returned a short
packet performs nothing at all: no flush, no event, no error. -/
theorem poll_loop_never_exits (env : Nat → ReadResult) (n : Nat) (r : ReadResult)
    (h : r.status ≠ IOReturn.success ∨ r.bytes.length ≠ MOUSE_PACKET_LENGTH) :
    countOp isDequeue (SerialMouse.pollTrace env n) = n ∧
    SerialMouse.pollStep r = [] := by
  constructor
  · induction n with
    | zero => rfl
    | succ k ih =>
      rw [SerialMouse.pollTrace, countOp_append, ih,
          countOp_cons_true _ _ _ rfl, pollStep_no_dequeue]
  · unfold SerialMouse.pollStep
    rw [if_neg]
    intro hc
    rcases h with h | h
    · exact h hc.1
    · exact h hc.2

/-- Claim C10 witness: the no-exit theorem applied to an environment that
always returns a transport read error carrying a short buffer. -/
theorem poll_loop_never_exits_witness :
    ((ReadResult.mk (IOReturn.ioError 2) [7]).status ≠ IOReturn.success ∨
      (ReadResult.mk (IOReturn.ioError 2) [7]).bytes.length ≠ MOUSE_PACKET_LENGTH) ∧
    (countOp isDequeue
        (SerialMouse.pollTrace (fun _ => ReadResult.mk (IOReturn.ioError 2) [7]) 3) = 3 ∧
     SerialMouse.pollStep (ReadResult.mk (IOReturn.ioError 2) [7]) = []) :=
  ⟨Or.inl (by decide),
   poll_loop_never_exits (fun _ => ReadResult.mk (IOReturn.ioError 2) [7]) 3
     (ReadResult.mk (IOReturn.ioError 2) [7]) (Or.inl (by decide))⟩

/-- A transport ready for a start attempt, with a device that answers the
wake-up pulse with the identification byte. -/
def c3Stream : SerialStream := freshStream false 300 8 1 0 [] [MOUSE_ID_BYTE]

/-- The transport-operation trace of a fully successful start on `c3Stream`. -/
def c3Trace : List Op := (SerialMouse.start c3Stream IOReturn.success).2.2

/-- Claim C3 counterexample: the claim puts the full-configuration-and-
activate step after the DTR toggle and after the flush; on the code the
line is activated before the receive-queue flush (and hence before the
toggle) in the negotiate sequence. -/
theorem start_activates_before_flush_counterexample :
    Op.execute SerialEvent.active 1 ∈ c3Trace ∧
    Op.execute SerialEvent.rxqFlush 0 ∈ c3Trace ∧
    c3Trace.indexOf (Op.execute SerialEvent.active 1) <
      c3Trace.indexOf (Op.execute SerialEvent.rxqFlush 0) := by
  decide

/-- The exact transport-operation order of the negotiate portion of start:
acquire, then the four configuration writes, activate, flush, flow-control
pulse (apply, deassert DTR, re-apply), the 100 ms sleep, and the 1-byte
no-wait read. -/
def negotiateStartOps : List Op :=
  [Op.acquire,
   Op.execute SerialEvent.dataRate MOUSE_DATA_RATE,
   Op.execute SerialEvent.dataSize MOUSE_DATA_SIZE,
   Op.execute SerialEvent.stopBits MOUSE_STOP_BITS,
   Op.execute SerialEvent.flowControl MOUSE_FLOW_CONTROL,
   Op.execute SerialEvent.active 1,
   Op.execute SerialEvent.rxqFlush 0,
   Op.execute SerialEvent.flowControl MOUSE_FLOW_CONTROL,
   Op.execute SerialEvent.flowControl (MOUSE_FLOW_CONTROL &&& compl32 PD_RS232_S_DTR),
   Op.execute SerialEvent.flowControl MOUSE_FLOW_CONTROL,
   Op.sleep MOUSE_ID_DELAY_MS,
   Op.dequeue 1 0]

/-- Claim C3 (amended): on every fault-free, unowned transport, the
negotiate procedure run by start performs, in order: set the full required
LineConfiguration and activate the line first; then flush the receive
queue; apply the required flow-control state; deassert DTR only, holding
RTS; re-apply the flow-control state; sleep the 100 ms identification
delay; read 1 byte with no wait; then compare — the configuration and
activation happen before the flush and DTR toggle, not after. -/
theorem start_negotiate_order (act : Bool) (dr ds sb fc : Nat) (rq inc : List Nat)
    (spawnR : IOReturn) :
    ((SerialMouse.start (freshStream act dr ds sb fc rq inc) spawnR).2.2).take 12 =
      negotiateStartOps ∧
    MOUSE_FLOW_CONTROL &&& compl32 PD_RS232_S_DTR = PD_RS232_S_RTS := by
  refine ⟨?_, by decide⟩
  rcases inc with _ | ⟨b, t⟩
  · rfl
  · by_cases hb : b = MOUSE_ID_BYTE
    · subst hb
      by_cases hs : spawnR = IOReturn.success
      · subst hs; rfl
      · simp [SerialMouse.start, SerialMouse.acquirePort, SerialStream.acquirePort,
              SerialMouse.setupPort, SerialMouse.setPortSettings, SerialStream.executeEvent,
              findFault, SerialMouse.checkMouseId, SerialMouse.flushPort,
              SerialStream.sleepDeliver, SerialStream.dequeueData, SerialMouse.startFail,
              SerialMouse.releasePort, SerialStream.releasePort, freshStream, hs,
              negotiateStartOps]
    · simp [SerialMouse.start, SerialMouse.acquirePort, SerialStream.acquirePort,
            SerialMouse.setupPort, SerialMouse.setPortSettings, SerialStream.executeEvent,
            findFault, SerialMouse.checkMouseId, SerialMouse.flushPort,
            SerialStream.sleepDeliver, SerialStream.dequeueData, SerialMouse.startFail,
            SerialMouse.releasePort, SerialStream.releasePort, freshStream, hb,
            negotiateStartOps]

/-- Claim C4 counterexample: with no identification byte available at the
no-wait read, negotiate is claimed to fail with Timeout; on the code it
returns kIOReturnInvalid — the same error as a wrong byte — because the
zero-byte read succeeds and the buffer keeps its initial 0. -/
theorem no_id_byte_yields_invalid_counterexample :
    (SerialMouse.checkMouseId pollingStream).1 = IOReturn.invalid ∧
    IOReturn.invalid ≠ IOReturn.timeout := by
  decide

/-- Claim C4 (amended): on every fault-free owned transport whose device
sends no identification byte, the no-wait read succeeds with zero bytes,
the identification buffer keeps its initial 0, and checkMouseId fails with
kIOReturnInvalid — the same error as a present-but-wrong byte; no distinct
Timeout error exists on this path. -/
theorem checkMouseId_no_byte_yields_invalid (act : Bool) (dr ds sb fc : Nat)
    (rq : List Nat) :
    (SerialMouse.checkMouseId (ownedStream act dr ds sb fc rq [])).1 = IOReturn.invalid :=
  rfl

/-- Claim C8: when negotiate fails during start (the device answers the
wake-up pulse with a wrong byte, or with nothing), start returns false,
exclusive ownership is released exactly once, and no polling worker is
spawned. -/
theorem start_negotiate_failure_cleanup (act : Bool) (dr ds sb fc : Nat)
    (rq inc : List Nat) (spawnR : IOReturn) (hid : inc.headD 0 ≠ MOUSE_ID_BYTE) :
    (SerialMouse.start (freshStream act dr ds sb fc rq inc) spawnR).1 = false ∧
    (SerialMouse.start (freshStream act dr ds sb fc rq inc) spawnR).2.1.acquired = false ∧
    countOp isRelease (SerialMouse.start (freshStream act dr ds sb fc rq inc) spawnR).2.2 = 1 ∧
    countOp isThreadStart
      (SerialMouse.start (freshStream act dr ds sb fc rq inc) spawnR).2.2 = 0 := by
  rcases inc with _ | ⟨b, t⟩
  · exact ⟨rfl, rfl, rfl, rfl⟩
  · have hb : b ≠ MOUSE_ID_BYTE := hid
    simp [SerialMouse.start, SerialMouse.acquirePort, SerialStream.acquirePort,
          SerialMouse.setupPort, SerialMouse.setPortSettings, SerialStream.executeEvent,
          findFault, SerialMouse.checkMouseId, SerialMouse.flushPort,
          SerialStream.sleepDeliver, SerialStream.dequeueData, SerialMouse.startFail,
          SerialMouse.releasePort, SerialStream.releasePort, freshStream, hb,
          countOp, isRelease, isThreadStart]

/-- Claim C8 witness: the cleanup theorem applied to a concrete transport
whose device answers with the wrong byte 0x00. -/
theorem start_negotiate_failure_cleanup_witness :
    (([0] : List Nat).headD 0 ≠ MOUSE_ID_BYTE) ∧
    ((SerialMouse.start (freshStream false 300 8 1 0 [] [0]) IOReturn.success).1 = false ∧
     (SerialMouse.start (freshStream false 300 8 1 0 [] [0]) IOReturn.success).2.1.acquired =
       false ∧
     countOp isRelease
       (SerialMouse.start (freshStream false 300 8 1 0 [] [0]) IOReturn.success).2.2 = 1 ∧
     countOp isThreadStart
       (SerialMouse.start (freshStream false 300 8 1 0 [] [0]) IOReturn.success).2.2 = 0) :=
  ⟨by decide,
   start_negotiate_failure_cleanup false 300 8 1 0 [] [0] IOReturn.success (by decide)⟩
